import Mathlib

/-!
Verification of the reminder scheduling and push-notification delivery engine
of the daylock backend.

The embedding follows the source:
  * `src/src/cron/reminderCron.js` — `clearDailyLog`, `parseTimeInTimezone`,
    `checkAndSendReminders` (the per-minute tick loop with the in-memory dedup
    set `firedToday`).
  * the web-push service (`pushService.sendToUser`, `pushService.sendRoomReminder`).

Modelling conventions:
  * Absolute instants are epoch milliseconds, as `Int` (JS `Date.getTime()`).
  * A calendar date is represented by its day index `instant / 86400000`;
    the civil date `(y, m, d)` of an instant `u` read in UTC corresponds
    exactly to `days_from_civil (y, m, d) = u / 86400000`, so the
    `Intl.DateTimeFormat` date lookup and the ISO date-string round trips in
    the source are represented without year/month/day arithmetic.
  * An IANA time zone is a `Timezone`: a validity flag (whether
    `Intl.DateTimeFormat` accepts the identifier) together with its UTC offset
    (milliseconds to add to UTC to get local wall-clock) as a function of the
    instant, so zones with daylight-saving transitions are representable.
    The source's offset computation (the `toLocaleString` round trip at
    `tempDate`) recovers exactly the zone's offset at the probed instant for
    whole-second offsets, so it is modelled as `tz.offsetAt tempDate`.
  * The server's own zone is modelled as a fixed offset `serverOffset`
    (the host zone's offset during the day in question), which makes
    `Date.prototype.setHours` exact.
  * A `TIME` string `"HH:MM[:SS]"` is modelled after
    `timeStr.split(':').map(Number)` followed by `parts[i] || 0`: a list of
    `Option Nat` (with `none` for a NaN component) read through
    `(parts.getD i none).getD 0`.  A null/empty `time_start` is `none` at the
    outer `Option` level.
  * In the valid-zone path the source builds an ISO string
    `YYYY-MM-DDTHH:MM:00` and parses it with `new Date(... + 'Z')`; that
    parser rejects out-of-range wall-clock digits, producing an Invalid Date
    whose NaN arithmetic makes every window test false downstream.  This is
    modelled by returning `none` when `hours > 23` or `minutes > 59` (`TIME`
    values from the store are always in range, so the branch is unreachable
    for real rows).
-/

namespace Daylock

/-- A time zone as the engine observes it: whether `Intl.DateTimeFormat`
recognises the identifier, and the zone's UTC offset (ms) at a given instant. -/
structure Timezone where
  valid : Bool
  offsetAt : Int → Int

/-- The zone the source falls back to via `reminder.timezone || 'UTC'`. -/
def utcTz : Timezone := { valid := true, offsetAt := fun _ => 0 }

/-- Result of `parseTimeInTimezone`: the resolved instant, and whether the
invalid-zone fallback fired (the `console.warn` on line 84 of
`reminderCron.js`, the observable warning signal). -/
structure ParseResult where
  instant : Int
  warned : Bool
deriving DecidableEq

/-- Embedding of `parseTimeInTimezone(timeStr, timezone)`
(`src/src/cron/reminderCron.js` lines 39-89).  The function reads the ambient
clock with `new Date()` (line 48, and again on line 85 in the fallback); the
ambient reading is threaded explicitly as `now`.  `serverOffset` is the host
zone's fixed UTC offset, used only by the `setHours` fallback (lines 85-87). -/
def parseTimeInTimezone (timeStr : Option (List (Option Nat))) (tz : Timezone)
    (serverOffset : Int) (now : Int) : Option ParseResult :=
  match timeStr with
  | none => none
  | some parts =>
    let hours : Nat := (parts.getD 0 none).getD 0
    let minutes : Nat := (parts.getD 1 none).getD 0
    if tz.valid then
      if hours ≤ 23 ∧ minutes ≤ 59 then
        let tzDay : Int := (now + tz.offsetAt now) / 86400000
        let tempDate : Int := tzDay * 86400000 + (hours : Int) * 3600000 + (minutes : Int) * 60000
        let offsetMs : Int := tz.offsetAt tempDate
        some { instant := tempDate - offsetMs, warned := false }
      else
        none
    else
      let localDay : Int := (now + serverOffset) / 86400000
      some { instant := localDay * 86400000 + (hours : Int) * 3600000
                          + (minutes : Int) * 60000 - serverOffset
           , warned := true }

/-- The room projection joined by the reminder query
(`rooms(id, name, emoji, time_start, time_end)`). -/
structure Room where
  id : Nat
  name : String
  emoji : Option String
  time_start : Option (List (Option Nat))
  time_end : Option (List (Option Nat))

/-- A `room_reminders` row joined with its room (`reminder.rooms`).
`timezone := none` covers a null/empty stored zone (`|| 'UTC'`). -/
structure Reminder where
  user_id : Nat
  room_id : Nat
  minutes_before : Nat
  enabled : Bool
  timezone : Option Timezone
  rooms : Option Room

/-- The guard chain of one loop iteration of `checkAndSendReminders`
(lines 116-132): room present, non-null `time_start`, resolve the opening
instant in the user's zone, and test the half-open one-minute window. -/
def isDue (serverOffset now : Int) (r : Reminder) : Bool :=
  match r.rooms with
  | none => false
  | some room =>
    match room.time_start with
    | none => false
    | some ts =>
      match parseTimeInTimezone (some ts) (r.timezone.getD utcTz) serverOffset now with
      | none => false
      | some res =>
        let reminderTime := res.instant - (r.minutes_before : Int) * 60000
        decide (0 ≤ now - reminderTime ∧ now - reminderTime < 60000)

/-- The reminders reported due at a tick: the fetch filters
`.eq('enabled', true)` server-side, then each row runs the window guard. -/
def findDue (reminders : List Reminder) (serverOffset now : Int) : List Reminder :=
  (reminders.filter (fun r => r.enabled)).filter (isDue serverOffset now)

/-- The dedup identity `userId-roomId-minutesBefore-YYYY-MM-DD` (line 135);
the date component is the UTC day index of `now.toISOString().slice(0, 10)`. -/
abbrev FiringKey := Nat × Nat × Nat × Int

/-- The dedup key of a reminder for a given UTC day index. -/
def keyOf (r : Reminder) (dayIdx : Int) : FiringKey :=
  (r.user_id, r.room_id, r.minutes_before, dayIdx)

/-- Outcome of one `pushService.sendRoomReminder` call as the cron sees it:
a normal return carrying counts, or a raised error (caught on line 164). -/
inductive DispatchOutcome where
  | ok (sent : Nat) (failed : Nat)
  | error

/-- One reminder's pass through the loop body (lines 116-168), with the
`firedToday` ledger threaded: returns the new ledger and whether a push
dispatch was attempted.  Both the success branch (line 147) and the catch
branch (line 166) add the dedup key, so the ledger update is the same for
every `DispatchOutcome`. -/
def processReminder (ledger : List FiringKey) (serverOffset now : Int)
    (outcome : DispatchOutcome) (r : Reminder) : List FiringKey × Bool :=
  if isDue serverOffset now r then
    let key := keyOf r (now / 86400000)
    if key ∈ ledger then (ledger, false)
    else
      match outcome with
      | .ok _ _ => (key :: ledger, true)
      | .error => (key :: ledger, true)
  else (ledger, false)

/-- Tick-loop step used for whole-day runs: the ledger together with the
trace of dispatch attempts (each attempted firing recorded by its key).
The dispatch outcome never influences the ledger or the attempt decision
(see `processReminder`), so it is not threaded here. -/
def tickStep (serverOffset now : Int) (st : List FiringKey × List FiringKey)
    (r : Reminder) : List FiringKey × List FiringKey :=
  if isDue serverOffset now r then
    let key := keyOf r (now / 86400000)
    if key ∈ st.1 then st
    else (key :: st.1, st.2 ++ [key])
  else st

/-- One full `checkAndSendReminders` tick over the fetched enabled rows. -/
def checkTick (reminders : List Reminder) (serverOffset now : Int)
    (st : List FiringKey × List FiringKey) : List FiringKey × List FiringKey :=
  (reminders.filter (fun r => r.enabled)).foldl (tickStep serverOffset now) st

/-- A sequence of ticks (the `'* * * * *'` cron schedule) run in order. -/
def runDay (reminders : List Reminder) (serverOffset : Int) (ticks : List Int)
    (st : List FiringKey × List FiringKey) : List FiringKey × List FiringKey :=
  ticks.foldl (fun acc now => checkTick reminders serverOffset now acc) st

/-- The 1440 one-minute tick instants of UTC day `d`, 00:00 through 23:59. -/
def dayTicks (d : Int) : List Int :=
  (List.range 1440).map (fun k : Nat => 86400000 * d + 60000 * (k : Int))

/-- Number of dispatch attempts recorded for a given firing key. -/
def countKey : List FiringKey → FiringKey → Nat
  | [], _ => 0
  | k :: ks, key => (if k = key then 1 else 0) + countKey ks key

/-- A `push_subscriptions` row as the dispatcher needs it. -/
structure Endpoint where
  id : Nat
  user_id : Nat
  active : Bool
deriving DecidableEq

/-- The transport's verdict for one endpoint: `webpush.sendNotification`
resolves, or rejects with an error carrying an optional HTTP status. -/
inductive TransportOutcome where
  | ok
  | err (statusCode : Option Nat)
deriving DecidableEq

/-- The permanent-failure test on line 54 of the push service:
`err.statusCode === 410 || err.statusCode === 404`. -/
def isGoneStatus : Option Nat → Bool
  | some 410 => true
  | some 404 => true
  | _ => false

/-- Counts returned by `sendToUser` (`{ sent, failed }`). -/
structure SendResult where
  sent : Nat
  failed : Nat
deriving DecidableEq

/-- The `active = false` update keyed on the subscription id (lines 55-58). -/
def deactivateEndpoint (store : List Endpoint) (id : Nat) : List Endpoint :=
  store.map (fun e => if e.id = id then { e with active := false } else e)

/-- State of a `sendToUser` call: the counts, the subscription store, and the
trace of endpoints handed to the transport (ids in subscription order). -/
structure DispatchState where
  result : SendResult
  store : List Endpoint
  attempted : List Nat
deriving DecidableEq

/-- Per-endpoint branch of the `Promise.allSettled` map (lines 41-64): a
resolved send bumps `sent`; a rejection bumps `failed` and deactivates the
endpoint exactly when the status is 410 or 404.  Count increments and
id-keyed deactivations commute, so completion order does not matter and the
subscription order is used. -/
def sendStep (transport : Endpoint → TransportOutcome) (st : DispatchState)
    (sub : Endpoint) : DispatchState :=
  match transport sub with
  | .ok =>
    { st with result := { st.result with sent := st.result.sent + 1 }
            , attempted := st.attempted ++ [sub.id] }
  | .err code =>
    { result := { st.result with failed := st.result.failed + 1 }
    , store := if isGoneStatus code then deactivateEndpoint st.store sub.id else st.store
    , attempted := st.attempted ++ [sub.id] }

/-- Embedding of `pushService.sendToUser(userId, payload)` (push service
lines 15-68): fetch the user's active subscriptions, return zero counts
without any transport call when the list is empty, otherwise classify every
endpoint's outcome.  Per-endpoint errors are caught inside the map, so the
call returns normally for every outcome combination. -/
def sendToUser (pushEnabled : Bool) (store : List Endpoint) (userId : Nat)
    (transport : Endpoint → TransportOutcome) : DispatchState :=
  if pushEnabled then
    let subs := store.filter (fun e => e.user_id == userId && e.active)
    if subs.isEmpty then { result := ⟨0, 0⟩, store := store, attempted := [] }
    else subs.foldl (sendStep transport) { result := ⟨0, 0⟩, store := store, attempted := [] }
  else { result := ⟨0, 0⟩, store := store, attempted := [] }

/-- The push payload built by `pushService.sendRoomReminder` (lines 101-118),
with the nested `data` object flattened into `data`-prefixed fields. -/
structure PushPayload where
  type : String
  title : String
  body : String
  dataRoomId : Nat
  dataUrl : String
  dataMinutesBefore : Nat
  tag : String
  icon : String
  badge : String
deriving DecidableEq

/-- The `minLabel` template (lines 102-104): `${minutesBefore} min` under an
hour, otherwise `${h}h` plus a ` ${m}m` part when the remainder is nonzero. -/
def minLabel (minutesBefore : Nat) : String :=
  if minutesBefore < 60 then toString minutesBefore ++ " min"
  else toString (minutesBefore / 60) ++ "h"
        ++ (if minutesBefore % 60 ≠ 0 then " " ++ toString (minutesBefore % 60) ++ "m" else "")

/-- The payload `sendRoomReminder` passes to `sendToUser` (lines 106-118). -/
def sendRoomReminderPayload (room : Room) (minutesBefore : Nat) : PushPayload :=
  { type := "room_reminder"
  , title := room.emoji.getD "📋" ++ " " ++ room.name ++ " opens soon!"
  , body := "Your room opens in " ++ minLabel minutesBefore ++ ". Get ready!"
  , dataRoomId := room.id
  , dataUrl := "/rooms/" ++ toString room.id
  , dataMinutesBefore := minutesBefore
  , tag := "room-reminder-" ++ toString room.id ++ "-" ++ toString minutesBefore
  , icon := "/Assets/daylock_logo.png"
  , badge := "/favicon.svg" }

/-- The local wall-clock reading of an instant in a zone, as
clock-digits-since-epoch milliseconds. -/
def wallClock (tz : Timezone) (i : Int) : Int := i + tz.offsetAt i

/-- The requested civil target: the zone-local calendar date of the
reference instant combined with the requested time-of-day, as
clock-digits-since-epoch milliseconds (`localDateStr` on line 69). -/
def civilProbe (tz : Timezone) (now : Int) (ts : List (Option Nat)) : Int :=
  ((now + tz.offsetAt now) / 86400000) * 86400000
    + (((ts.getD 0 none).getD 0 : Nat) : Int) * 3600000
    + (((ts.getD 1 none).getD 0 : Nat) : Int) * 60000

/-- The calendar day the resolver's output date is taken from: the target
zone's date of `now` when the zone is recognised, the server zone's date
otherwise. -/
def effectiveDay (tz : Timezone) (serverOffset now : Int) : Int :=
  if tz.valid then (now + tz.offsetAt now) / 86400000
  else (now + serverOffset) / 86400000

/-- Modelled from the spec: the server-local interpretation of a time-of-day,
"today's date in the server zone at that wall-clock time" (spec section 4.1,
failure clause).  Used to compare the fallback path of the source against
the spec's words. -/
def specServerLocalInterpretation (serverOffset now : Int) (hours minutes : Nat) : Int :=
  ((now + serverOffset) / 86400000) * 86400000
    + (hours : Int) * 3600000 + (minutes : Int) * 60000 - serverOffset

end Daylock

namespace Daylock

/-- The concrete daylight-saving zone used to probe `parseTimeInTimezone`:
offset -5h before instant 25200000 (07:00 UTC of day 0) and -4h after,
the shape of America/New_York on a spring-forward day with day 0 the
transition day. -/
def dstTz : Timezone :=
  { valid := true, offsetAt := fun i => if i < 25200000 then -18000000 else -14400000 }

/-- The concrete unrecognised zone used to probe the fallback path. -/
def invalidTz : Timezone := { valid := false, offsetAt := fun _ => 0 }

/-- C4 counterexample: on the transition day, requesting 03:00 in `dstTz`
with reference instant noon UTC returns 28800000, whose wall-clock reading
in the zone is 04:00, not the requested 03:00: the offset is computed at the
civil digits read as UTC, not at the result instant, so on
daylight-saving transition days the returned instant's wall-clock reading
can differ from the requested time-of-day. -/
theorem c4_counterexample_dst_transition :
    parseTimeInTimezone (some [some 3, some 0, some 0]) dstTz 0 43200000 =
      some { instant := 28800000, warned := false } ∧
    wallClock dstTz 28800000 ≠ civilProbe dstTz 43200000 [some 3, some 0, some 0] := by
  constructor
  · decide
  · decide

/-- C4 (amended): for a recognised zone and in-range digits,
`parseTimeInTimezone` resolves to the instant obtained by subtracting the
zone's offset probed at the civil digits read as UTC; whenever the zone's
offset at the returned instant agrees with the offset at that probe (in
particular on days without a transition between the two), the returned
instant's wall-clock reading in the zone equals the requested time-of-day
on the calendar date the reference instant has in that zone — independent
of the server's zone. -/
theorem c4_amended_offset_stable (ts : List (Option Nat)) (tz : Timezone) (so now : Int)
    (hvalid : tz.valid = true)
    (hh : (ts.getD 0 none).getD 0 ≤ 23) (hmi : (ts.getD 1 none).getD 0 ≤ 59)
    (hstable : tz.offsetAt (civilProbe tz now ts - tz.offsetAt (civilProbe tz now ts))
                = tz.offsetAt (civilProbe tz now ts)) :
    ∃ res, parseTimeInTimezone (some ts) tz so now = some res ∧ res.warned = false ∧
      wallClock tz res.instant = civilProbe tz now ts := by
  refine ⟨⟨civilProbe tz now ts - tz.offsetAt (civilProbe tz now ts), false⟩, ?_, rfl, ?_⟩
  · simp only [parseTimeInTimezone, hvalid, if_true, civilProbe]
    rw [if_pos ⟨hh, hmi⟩]
  · unfold wallClock
    simp only
    rw [hstable]
    ring

/-- C4 witness: a fixed-offset zone trivially satisfies the stability
hypothesis, and the resolution of 09:00 UTC at reference noon reads back
as 09:00. -/
theorem c4_amended_offset_stable_witness :
    utcTz.valid = true ∧
    ∃ res, parseTimeInTimezone (some [some 9, some 0, some 0]) utcTz 0 43200000 = some res ∧
      res.warned = false ∧
      wallClock utcTz res.instant = civilProbe utcTz 43200000 [some 9, some 0, some 0] :=
  ⟨rfl, c4_amended_offset_stable [some 9, some 0, some 0] utcTz 0 43200000 rfl
    (by decide) (by decide) rfl⟩

/-- C5: an unrecognised zone is not fatal: `parseTimeInTimezone` still
returns an instant — the server-local interpretation of the time-of-day
(today's date in the server zone at that wall-clock time) — and the
fallback is observable through the warning flag (the `console.warn` on
line 84). -/
theorem c5_invalid_zone_fallback (ts : List (Option Nat)) (tz : Timezone) (so now : Int)
    (hinvalid : tz.valid = false) :
    parseTimeInTimezone (some ts) tz so now =
      some { instant := specServerLocalInterpretation so now
                          ((ts.getD 0 none).getD 0) ((ts.getD 1 none).getD 0)
           , warned := true } := by
  simp only [parseTimeInTimezone, hinvalid, Bool.false_eq_true, if_false,
    specServerLocalInterpretation]

/-- C5 witness: the unrecognised zone at server offset +1h, reference noon,
resolves "09:00:00" to 08:00 UTC (09:00 server-local) with the warning
flag set. -/
theorem c5_invalid_zone_fallback_witness :
    invalidTz.valid = false ∧
    parseTimeInTimezone (some [some 9, some 0, some 0]) invalidTz 3600000 43200000 =
      some { instant := specServerLocalInterpretation 3600000 43200000 9 0
           , warned := true } :=
  ⟨rfl, c5_invalid_zone_fallback [some 9, some 0, some 0] invalidTz 3600000 43200000 rfl⟩

/-- C8 counterexample: the resolved instant depends on the ambient clock
reading, with the time-of-day and the zone held fixed: the JS function takes
only `(timeStr, timezone)` and reads `new Date()` internally, so two calls
with the same caller-supplied inputs can return different instants. -/
theorem c8_counterexample_ambient_clock :
    parseTimeInTimezone (some [some 9, some 0, some 0]) utcTz 0 0 ≠
      parseTimeInTimezone (some [some 9, some 0, some 0]) utcTz 0 86400000 := by
  decide

/-- C8 (amended): the resolver is a deterministic, side-effect-free function
of the time-of-day, the zone, and the ambient clock reading — but the
reference instant is read from the ambient clock inside the function rather
than supplied by the caller; two calls whose ambient readings fall on the
same calendar date of the effective zone (target zone if recognised, server
zone otherwise) return the same instant. -/
theorem c8_amended_same_date_deterministic (ts : List (Option Nat)) (tz : Timezone)
    (so now1 now2 : Int)
    (h : effectiveDay tz so now1 = effectiveDay tz so now2) :
    parseTimeInTimezone (some ts) tz so now1 = parseTimeInTimezone (some ts) tz so now2 := by
  unfold effectiveDay at h
  cases hv : tz.valid with
  | false =>
    rw [hv] at h
    simp only [Bool.false_eq_true, if_false] at h
    simp only [parseTimeInTimezone, hv, Bool.false_eq_true, if_false, h]
  | true =>
    rw [hv] at h
    simp only [if_true] at h
    simp only [parseTimeInTimezone, hv, if_true, h]

/-- C8 witness: two ambient readings one hour apart on the same UTC day
resolve "09:00:00" in UTC to the same instant. -/
theorem c8_amended_same_date_deterministic_witness :
    effectiveDay utcTz 0 0 = effectiveDay utcTz 0 3600000 ∧
    parseTimeInTimezone (some [some 9, some 0, some 0]) utcTz 0 0 =
      parseTimeInTimezone (some [some 9, some 0, some 0]) utcTz 0 3600000 :=
  ⟨by decide, c8_amended_same_date_deterministic [some 9, some 0, some 0] utcTz 0 0 3600000
    (by decide)⟩

/-- C10: time resolution ignores any seconds component: two time strings
agreeing on their hour and minute parts resolve identically (both in the
timezone path and the server-local fallback); moreover, when the zone's
offsets and the server offset are whole minutes, the resolved instant lands
on a whole minute. -/
theorem c10_seconds_ignored (p1 p2 : List (Option Nat)) (tz : Timezone) (so now : Int)
    (h0 : p1.getD 0 none = p2.getD 0 none) (h1 : p1.getD 1 none = p2.getD 1 none) :
    parseTimeInTimezone (some p1) tz so now = parseTimeInTimezone (some p2) tz so now ∧
    (∀ res, parseTimeInTimezone (some p1) tz so now = some res →
      (∀ i, (60000 : Int) ∣ tz.offsetAt i) → (60000 : Int) ∣ so →
      (60000 : Int) ∣ res.instant) := by
  constructor
  · simp only [parseTimeInTimezone, h0, h1]
  · intro res hres hz hso
    unfold parseTimeInTimezone at hres
    cases hv : tz.valid with
    | false =>
      rw [hv] at hres
      simp only [Bool.false_eq_true, if_false, Option.some.injEq] at hres
      rw [← hres]
      dsimp only
      omega
    | true =>
      rw [hv] at hres
      simp only [if_true] at hres
      split at hres
      · simp only [Option.some.injEq] at hres
        rw [← hres]
        dsimp only
        have h2 := hz ((now + tz.offsetAt now) / 86400000 * 86400000
          + (((p1.getD 0 none).getD 0 : Nat) : Int) * 3600000
          + (((p1.getD 1 none).getD 0 : Nat) : Int) * 60000)
        omega
      · exact absurd hres (by simp)

/-- C10 witness: "09:00:45" and "09:00:00" resolve to the same instant in
UTC, and the instant is a whole minute. -/
theorem c10_seconds_ignored_witness :
    [some 9, some 0, some 45].getD 0 none = [some 9, some 0, some 0].getD 0 none ∧
    parseTimeInTimezone (some [some 9, some 0, some 45]) utcTz 0 0 =
      parseTimeInTimezone (some [some 9, some 0, some 0]) utcTz 0 0 :=
  ⟨rfl, (c10_seconds_ignored [some 9, some 0, some 45] [some 9, some 0, some 0] utcTz 0 0
    rfl rfl).1⟩

end Daylock

namespace Daylock

/-- The window guard unfolded: a reminder passes the due check exactly when
its room is present with a non-null opening time, the opening time resolves,
and the tick lands in the half-open minute window after the target. -/
theorem isDue_eq_true_iff (so now : Int) (r : Reminder) :
    isDue so now r = true ↔
      ∃ room ts res, r.rooms = some room ∧ room.time_start = some ts ∧
        parseTimeInTimezone (some ts) (r.timezone.getD utcTz) so now = some res ∧
        0 ≤ now - (res.instant - (r.minutes_before : Int) * 60000) ∧
        now - (res.instant - (r.minutes_before : Int) * 60000) < 60000 := by
  unfold isDue
  cases hr : r.rooms with
  | none => simp
  | some room =>
    cases hts : room.time_start with
    | none => simp [hts]
    | some ts =>
      cases hp : parseTimeInTimezone (some ts) (r.timezone.getD utcTz) so now with
      | none => simp [hts, hp]
      | some res => simp [hts, hp, and_assoc]

/-- C2: the matcher's due decision is a biconditional: a reminder is in the
due set at tick instant `now` iff it is one of the fetched rows, is enabled,
its room exists with a non-null (and resolvable) opening time, and
`now - (roomOpensAt - minutes_before * 60000)` lies in `[0, 60000)`.  In
particular a reminder whose room has a null opening time is never due
(`room.time_start = some ts` is unsatisfiable for it), for any `now`. -/
theorem c2_matcher_iff (reminders : List Reminder) (so now : Int) (r : Reminder) :
    r ∈ findDue reminders so now ↔
      r ∈ reminders ∧ r.enabled = true ∧
      ∃ room ts res, r.rooms = some room ∧ room.time_start = some ts ∧
        parseTimeInTimezone (some ts) (r.timezone.getD utcTz) so now = some res ∧
        0 ≤ now - (res.instant - (r.minutes_before : Int) * 60000) ∧
        now - (res.instant - (r.minutes_before : Int) * 60000) < 60000 := by
  unfold findDue
  rw [List.mem_filter, List.mem_filter, isDue_eq_true_iff, and_assoc]

/-- C3: for a due firing not yet in the ledger, the dispatch is attempted
and the dedup key is recorded for every dispatch outcome — a normal return
with any counts (including zero successes) and a raised error alike — and
afterwards no reminder carrying the same `(user, room, minutes_before)` key
is attempted again on the same day, whatever its own outcome would be. -/
theorem c3_mark_fired_regardless (ledger : List FiringKey) (so now now2 : Int)
    (r r2 : Reminder) (o1 o2 : DispatchOutcome)
    (hdue : isDue so now r = true)
    (hnew : keyOf r (now / 86400000) ∉ ledger)
    (hkey : keyOf r2 (now2 / 86400000) = keyOf r (now / 86400000)) :
    (processReminder ledger so now o1 r).2 = true ∧
    keyOf r (now / 86400000) ∈ (processReminder ledger so now o1 r).1 ∧
    (processReminder (processReminder ledger so now o1 r).1 so now2 o2 r2).2 = false := by
  have h1 : processReminder ledger so now o1 r = (keyOf r (now / 86400000) :: ledger, true) := by
    unfold processReminder
    rw [if_pos hdue, if_neg hnew]
    cases o1 <;> rfl
  refine ⟨by rw [h1], by rw [h1]; exact List.mem_cons_self _ _, ?_⟩
  rw [h1]
  unfold processReminder
  by_cases hd2 : isDue so now2 r2 = true
  · rw [if_pos hd2, if_pos (by rw [hkey]; exact List.mem_cons_self _ _)]
  · rw [if_neg hd2]

end Daylock

namespace Daylock

/-- Concrete reminder used in the C3 witness: room opens 09:00 UTC,
reminder 15 minutes before, so it is due at the 08:45 tick of day 0. -/
def c3Rem : Reminder :=
  ⟨3, 2, 15, true, none, some ⟨2, "Gym", none, some [some 9, some 0, some 0], none⟩⟩

/-- C3 witness: at the due tick, a dispatch that raises is still marked
fired, and a minute later the same key is not attempted again even though a
zero-success outcome would await it. -/
theorem c3_mark_fired_regardless_witness :
    isDue 0 31500000 c3Rem = true ∧
    keyOf c3Rem ((31500000 : Int) / 86400000) ∉ ([] : List FiringKey) ∧
    ((processReminder [] 0 31500000 .error c3Rem).2 = true ∧
      keyOf c3Rem ((31500000 : Int) / 86400000) ∈
        (processReminder [] 0 31500000 .error c3Rem).1 ∧
      (processReminder (processReminder [] 0 31500000 .error c3Rem).1
        0 31560000 (.ok 0 3) c3Rem).2 = false) :=
  ⟨by decide, by decide,
    c3_mark_fired_regardless [] 0 31500000 31560000 c3Rem c3Rem .error (.ok 0 3)
      (by decide) (by decide) (by decide)⟩

/-- Every endpoint handed to the dispatch fold contributes to exactly one of
the two counters, so the call always returns counts summing to the number of
endpoints — a normal return for every outcome combination, never a raise. -/
theorem sendFold_counts (transport : Endpoint → TransportOutcome)
    (subs : List Endpoint) (st : DispatchState) :
    (subs.foldl (sendStep transport) st).result.sent
      + (subs.foldl (sendStep transport) st).result.failed
      = st.result.sent + st.result.failed + subs.length := by
  induction subs generalizing st with
  | nil => simp
  | cons e tl ih =>
    rw [List.foldl_cons, ih]
    cases h : transport e <;> simp [sendStep, h] <;> omega

/-- C6: with three active endpoints whose transport outcomes are success,
permanent failure (status 410 or 404), and transient failure respectively,
`sendToUser` returns counts `{sent := 1, failed := 2}`, deactivates exactly
the Gone endpoint (the store update touches only its id), leaves the
transient endpoint active, and — for any combination of per-endpoint
outcomes whatsoever — returns normally with counts summing to the number of
endpoints. -/
theorem c6_partial_failure (store : List Endpoint) (userId : Nat)
    (transport : Endpoint → TransportOutcome) (e1 e2 e3 : Endpoint) (s2 s3 : Option Nat)
    (hsubs : store.filter (fun e => e.user_id == userId && e.active) = [e1, e2, e3])
    (h1 : transport e1 = .ok)
    (h2 : transport e2 = .err s2) (h2g : isGoneStatus s2 = true)
    (h3 : transport e3 = .err s3) (h3t : isGoneStatus s3 = false)
    (hne : e3.id ≠ e2.id) :
    sendToUser true store userId transport =
      { result := ⟨1, 2⟩, store := deactivateEndpoint store e2.id
      , attempted := [e1.id, e2.id, e3.id] } ∧
    e3 ∈ (sendToUser true store userId transport).store ∧ e3.active = true ∧
    (∀ tr2 : Endpoint → TransportOutcome,
      (sendToUser true store userId tr2).result.sent
        + (sendToUser true store userId tr2).result.failed = 3) := by
  have he3f : e3 ∈ store.filter (fun e => e.user_id == userId && e.active) := by
    rw [hsubs]; simp
  have he3 : e3 ∈ store := (List.mem_filter.mp he3f).1
  have he3a : e3.active = true := by
    have := (List.mem_filter.mp he3f).2
    simp only [Bool.and_eq_true] at this
    exact this.2
  have hmain : sendToUser true store userId transport =
      { result := ⟨1, 2⟩, store := deactivateEndpoint store e2.id
      , attempted := [e1.id, e2.id, e3.id] } := by
    unfold sendToUser
    rw [if_pos rfl, hsubs]
    simp only [List.isEmpty_cons, if_false, Bool.false_eq_true]
    rw [List.foldl_cons, List.foldl_cons, List.foldl_cons, List.foldl_nil]
    simp [sendStep, h1, h2, h3, h2g, h3t]
  refine ⟨hmain, ?_, he3a, ?_⟩
  · rw [hmain]
    simp only [deactivateEndpoint]
    have : (if e3.id = e2.id then { e3 with active := false } else e3) = e3 := if_neg hne
    rw [← this]
    exact List.mem_map_of_mem _ he3
  · intro tr2
    unfold sendToUser
    rw [if_pos rfl, hsubs]
    simp only [List.isEmpty_cons, if_false, Bool.false_eq_true]
    rw [sendFold_counts]
    rfl

/-- Concrete transport for the C6 witness: endpoint 1 succeeds, endpoint 2
is Gone (410), endpoint 3 fails transiently (500). -/
def c6transport : Endpoint → TransportOutcome := fun e =>
  if e.id = 1 then .ok else if e.id = 2 then .err (some 410) else .err (some 500)

/-- The three active subscriptions of user 7 in the C6 witness. -/
def c6store : List Endpoint := [⟨1, 7, true⟩, ⟨2, 7, true⟩, ⟨3, 7, true⟩]

/-- C6 witness: the concrete three-endpoint scenario. -/
theorem c6_partial_failure_witness :
    c6store.filter (fun e => e.user_id == 7 && e.active) =
      [⟨1, 7, true⟩, ⟨2, 7, true⟩, ⟨3, 7, true⟩] ∧
    (sendToUser true c6store 7 c6transport =
      { result := ⟨1, 2⟩, store := deactivateEndpoint c6store 2
      , attempted := [1, 2, 3] } ∧
    (⟨3, 7, true⟩ : Endpoint) ∈ (sendToUser true c6store 7 c6transport).store ∧
    (⟨3, 7, true⟩ : Endpoint).active = true ∧
    (∀ tr2 : Endpoint → TransportOutcome,
      (sendToUser true c6store 7 tr2).result.sent
        + (sendToUser true c6store 7 tr2).result.failed = 3)) :=
  ⟨by decide,
    c6_partial_failure c6store 7 c6transport ⟨1, 7, true⟩ ⟨2, 7, true⟩ ⟨3, 7, true⟩
      (some 410) (some 500) (by decide) (by decide) (by decide) (by decide) (by decide)
      (by decide) (by decide)⟩

/-- C7: a user with zero active subscriptions gets `{sent := 0, failed := 0}`
back, the store untouched, and the transport is never called (the attempted
trace is empty) — whether or not push is enabled. -/
theorem c7_no_endpoints (pushEnabled : Bool) (store : List Endpoint) (userId : Nat)
    (transport : Endpoint → TransportOutcome)
    (hempty : store.filter (fun e => e.user_id == userId && e.active) = []) :
    sendToUser pushEnabled store userId transport =
      { result := ⟨0, 0⟩, store := store, attempted := [] } := by
  unfold sendToUser
  cases pushEnabled with
  | false => rfl
  | true => rw [if_pos rfl, hempty]; rfl

/-- C7 witness: user 7 has only an inactive subscription and one belonging
to another user; no transport call happens and the counts are zero. -/
theorem c7_no_endpoints_witness :
    ([⟨1, 7, false⟩, ⟨2, 8, true⟩] : List Endpoint).filter
        (fun e => e.user_id == 7 && e.active) = [] ∧
    sendToUser true [⟨1, 7, false⟩, ⟨2, 8, true⟩] 7 (fun _ => .ok) =
      { result := ⟨0, 0⟩, store := [⟨1, 7, false⟩, ⟨2, 8, true⟩], attempted := [] } :=
  ⟨by decide, c7_no_endpoints true [⟨1, 7, false⟩, ⟨2, 8, true⟩] 7 (fun _ => .ok) (by decide)⟩

/-- C9 counterexample: the push payload's `type` field is `"room_reminder"`,
not `"room_opening"` (the latter is the `type` of the in-app notification
record the cron inserts, not of the push payload). -/
theorem c9_counterexample_payload_type :
    (sendRoomReminderPayload ⟨1, "Gym", none, none, none⟩ 15).type ≠ "room_opening" := by
  decide

/-- C9 (amended): every push payload produced for a room-opening reminder
has `type = "room_reminder"`, string title and body, carries the room id and
minutes-before in its data, and its dedup tag is a stable function of the
(room id, minutes-before) pair alone: any two rooms with the same id yield
the same tag. -/
theorem c9_amended_schema (room room2 : Room) (mb : Nat) (hid : room2.id = room.id) :
    (sendRoomReminderPayload room mb).type = "room_reminder" ∧
    (sendRoomReminderPayload room mb).dataRoomId = room.id ∧
    (sendRoomReminderPayload room mb).dataMinutesBefore = mb ∧
    (sendRoomReminderPayload room mb).tag =
      "room-reminder-" ++ toString room.id ++ "-" ++ toString mb ∧
    (sendRoomReminderPayload room2 mb).tag = (sendRoomReminderPayload room mb).tag := by
  refine ⟨rfl, rfl, rfl, rfl, ?_⟩
  simp [sendRoomReminderPayload, hid]

/-- C9 witness: two rooms sharing id 4 with different names and emoji get
the same dedup tag. -/
theorem c9_amended_schema_witness :
    (⟨4, "Other", some "📚", none, none⟩ : Room).id = (⟨4, "Gym", none, none, none⟩ : Room).id ∧
    ((sendRoomReminderPayload ⟨4, "Gym", none, none, none⟩ 15).type = "room_reminder" ∧
      (sendRoomReminderPayload ⟨4, "Gym", none, none, none⟩ 15).dataRoomId = 4 ∧
      (sendRoomReminderPayload ⟨4, "Gym", none, none, none⟩ 15).dataMinutesBefore = 15 ∧
      (sendRoomReminderPayload ⟨4, "Gym", none, none, none⟩ 15).tag =
        "room-reminder-" ++ toString 4 ++ "-" ++ toString 15 ∧
      (sendRoomReminderPayload ⟨4, "Other", some "📚", none, none⟩ 15).tag =
        (sendRoomReminderPayload ⟨4, "Gym", none, none, none⟩ 15).tag) :=
  ⟨rfl, c9_amended_schema ⟨4, "Gym", none, none, none⟩ ⟨4, "Other", some "📚", none, none⟩
    15 rfl⟩

end Daylock

namespace Daylock

/-- At a recognised zone with a constant whole-minute offset and in-range
digits, the resolver output in closed form. -/
theorem parse_const_offset (ts : List (Option Nat)) (tz : Timezone) (so now ω : Int)
    (hvalid : tz.valid = true) (hoff : ∀ i, tz.offsetAt i = 60000 * ω)
    (hh : (ts.getD 0 none).getD 0 ≤ 23) (hmi : (ts.getD 1 none).getD 0 ≤ 59) :
    parseTimeInTimezone (some ts) tz so now =
      some { instant := ((now + 60000 * ω) / 86400000) * 86400000
                          + (((ts.getD 0 none).getD 0 : Nat) : Int) * 3600000
                          + (((ts.getD 1 none).getD 0 : Nat) : Int) * 60000 - 60000 * ω
           , warned := false } := by
  simp only [parseTimeInTimezone, hvalid, if_true, hoff]
  rw [if_pos ⟨hh, hmi⟩]

/-- The due decision at the minute-`k` tick of UTC day `d`, for a reminder
in a constant-offset zone: due exactly when the tick's zone-local minute of
day equals the target minute `60 * hour + minute - minutes_before`. -/
theorem isDue_day_tick (r : Reminder) (room : Room) (ts : List (Option Nat))
    (so d ω : Int) (k : Nat)
    (hroom : r.rooms = some room) (hts : room.time_start = some ts)
    (hvalid : (r.timezone.getD utcTz).valid = true)
    (hoff : ∀ i, (r.timezone.getD utcTz).offsetAt i = 60000 * ω)
    (hh : (ts.getD 0 none).getD 0 ≤ 23) (hmi : (ts.getD 1 none).getD 0 ≤ 59) :
    (isDue so (86400000 * d + 60000 * (k : Int)) r = true ↔
      ((k : Int) + ω) % 1440 =
        60 * (((ts.getD 0 none).getD 0 : Nat) : Int)
          + (((ts.getD 1 none).getD 0 : Nat) : Int) - (r.minutes_before : Int)) := by
  have hp := parse_const_offset ts (r.timezone.getD utcTz) so
    (86400000 * d + 60000 * (k : Int)) ω hvalid hoff hh hmi
  simp only [isDue, hroom, hts, hp]
  rw [decide_eq_true_eq]
  have hE : (86400000 * d + 60000 * (k : Int) + 60000 * ω) / 86400000
      = d + ((k : Int) + ω) / 1440 := by omega
  rw [hE]
  omega

/-- Attempt counts over concatenated traces add. -/
theorem countKey_append (l1 l2 : List FiringKey) (key : FiringKey) :
    countKey (l1 ++ l2) key = countKey l1 key + countKey l2 key := by
  induction l1 with
  | nil => simp [countKey]
  | cons a tl ih =>
    show (if a = key then 1 else 0) + countKey (tl ++ l2) key
      = (if a = key then 1 else 0) + countKey tl key + countKey l2 key
    rw [ih]
    omega

/-- The ledger only grows across one reminder's tick step. -/
theorem tickStep_ledger_mono (so now : Int) (r : Reminder)
    (st : List FiringKey × List FiringKey) (key : FiringKey) (h : key ∈ st.1) :
    key ∈ (tickStep so now st r).1 := by
  unfold tickStep
  by_cases hdue : isDue so now r = true
  · rw [if_pos hdue]
    by_cases hc : keyOf r (now / 86400000) ∈ st.1
    · rw [if_pos hc]; exact h
    · rw [if_neg hc]; exact List.mem_cons_of_mem _ h
  · rw [if_neg hdue]; exact h

/-- The ledger only grows across a list of reminders. -/
theorem foldl_tickStep_ledger_mono (so now : Int) (rs : List Reminder)
    (st : List FiringKey × List FiringKey) (key : FiringKey) (h : key ∈ st.1) :
    key ∈ (rs.foldl (tickStep so now) st).1 := by
  induction rs generalizing st with
  | nil => exact h
  | cons a tl ih => exact ih _ (tickStep_ledger_mono so now a st key h)

/-- The ledger only grows across a whole tick. -/
theorem checkTick_ledger_mono (rs : List Reminder) (so now : Int)
    (st : List FiringKey × List FiringKey) (key : FiringKey) (h : key ∈ st.1) :
    key ∈ (checkTick rs so now st).1 :=
  foldl_tickStep_ledger_mono so now _ st key h

/-- The ledger only grows across a run of ticks. -/
theorem runDay_ledger_mono (rs : List Reminder) (so : Int) (ticks : List Int)
    (st : List FiringKey × List FiringKey) (key : FiringKey) (h : key ∈ st.1) :
    key ∈ (runDay rs so ticks st).1 := by
  induction ticks generalizing st with
  | nil => exact h
  | cons t tl ih => exact ih _ (checkTick_ledger_mono rs so t st key h)

/-- A due reminder's key is in the ledger after its own tick step. -/
theorem tickStep_ledger_adds (so now : Int) (r : Reminder)
    (st : List FiringKey × List FiringKey) (hdue : isDue so now r = true) :
    keyOf r (now / 86400000) ∈ (tickStep so now st r).1 := by
  unfold tickStep
  rw [if_pos hdue]
  by_cases hc : keyOf r (now / 86400000) ∈ st.1
  · rw [if_pos hc]; exact hc
  · rw [if_neg hc]; exact List.mem_cons_self _ _

/-- A due enabled reminder anywhere in the fetched list leaves its key in
the ledger after the tick. -/
theorem checkTick_ledger_adds (rs : List Reminder) (so now : Int)
    (st : List FiringKey × List FiringKey) (r : Reminder)
    (hmem : r ∈ rs) (hen : r.enabled = true) (hdue : isDue so now r = true) :
    keyOf r (now / 86400000) ∈ (checkTick rs so now st).1 := by
  have hf : r ∈ rs.filter (fun x => x.enabled) := List.mem_filter.mpr ⟨hmem, hen⟩
  obtain ⟨s, t, hsplit⟩ := List.append_of_mem hf
  unfold checkTick
  rw [hsplit, List.foldl_append, List.foldl_cons]
  exact foldl_tickStep_ledger_mono so now t _ _ (tickStep_ledger_adds so now r _ hdue)

/-- The dedup invariant driving the at-most-once property: a key's attempt
count is one when the key is in the ledger and zero otherwise. -/
def ledgerInv (key : FiringKey) (st : List FiringKey × List FiringKey) : Prop :=
  countKey st.2 key = if key ∈ st.1 then 1 else 0

/-- One reminder's tick step preserves the dedup invariant. -/
theorem tickStep_inv (so now : Int) (r : Reminder)
    (st : List FiringKey × List FiringKey) (key : FiringKey)
    (h : ledgerInv key st) : ledgerInv key (tickStep so now st r) := by
  unfold ledgerInv at h ⊢
  unfold tickStep
  by_cases hdue : isDue so now r = true
  · rw [if_pos hdue]
    by_cases hc : keyOf r (now / 86400000) ∈ st.1
    · rw [if_pos hc]; exact h
    · rw [if_neg hc]
      dsimp only
      rw [countKey_append]
      by_cases hk : keyOf r (now / 86400000) = key
      · have hnot : key ∉ st.1 := by rw [← hk]; exact hc
        rw [if_neg hnot] at h
        rw [h, if_pos (by rw [hk]; exact List.mem_cons_self _ _)]
        simp [countKey, hk]
      · have hmemiff : key ∈ keyOf r (now / 86400000) :: st.1 ↔ key ∈ st.1 := by
          constructor
          · intro hx
            rcases List.mem_cons.mp hx with hx | hx
            · exact absurd hx.symm hk
            · exact hx
          · exact List.mem_cons_of_mem _
        have hcnt : countKey [keyOf r (now / 86400000)] key = 0 := by
          simp [countKey, hk]
        rw [hcnt, h]
        by_cases hkey : key ∈ st.1
        · rw [if_pos hkey, if_pos (hmemiff.mpr hkey)]
        · rw [if_neg hkey, if_neg (fun hx => hkey (hmemiff.mp hx))]
  · rw [if_neg hdue]; exact h

/-- A whole tick preserves the dedup invariant. -/
theorem checkTick_inv (rs : List Reminder) (so now : Int)
    (st : List FiringKey × List FiringKey) (key : FiringKey)
    (h : ledgerInv key st) : ledgerInv key (checkTick rs so now st) := by
  unfold checkTick
  generalize rs.filter (fun r => r.enabled) = l
  induction l generalizing st with
  | nil => exact h
  | cons a tl ih => exact ih _ (tickStep_inv so now a st key h)

/-- A run of ticks preserves the dedup invariant. -/
theorem runDay_inv (rs : List Reminder) (so : Int) (ticks : List Int)
    (st : List FiringKey × List FiringKey) (key : FiringKey)
    (h : ledgerInv key st) : ledgerInv key (runDay rs so ticks st) := by
  induction ticks generalizing st with
  | nil => exact h
  | cons t tl ih => exact ih _ (checkTick_inv rs so t st key h)

end Daylock

namespace Daylock

/-- C1 (amended): over the 1440 one-minute ticks of a UTC day, starting from
the freshly cleared dedup ledger, an enabled reminder whose room has a valid
in-range opening time, whose zone is recognised with a constant whole-minute
offset, and whose target `opening time - minutes_before` does not cross back
past local midnight (`minutes_before ≤ 60 * hour + minute`), has a push
dispatch attempted exactly once: the dedup key plus the once-daily ledger
clear ensure no tick attempts the same firing twice, and exactly one tick
attempts it. -/
theorem c1_amended_fires_exactly_once (rs : List Reminder) (r : Reminder) (room : Room)
    (ts : List (Option Nat)) (so d ω : Int)
    (hmem : r ∈ rs) (hen : r.enabled = true)
    (hroom : r.rooms = some room) (hts : room.time_start = some ts)
    (hvalid : (r.timezone.getD utcTz).valid = true)
    (hoff : ∀ i, (r.timezone.getD utcTz).offsetAt i = 60000 * ω)
    (hh : (ts.getD 0 none).getD 0 ≤ 23) (hmi : (ts.getD 1 none).getD 0 ≤ 59)
    (hcross : (r.minutes_before : Int) ≤
        60 * (((ts.getD 0 none).getD 0 : Nat) : Int) + (((ts.getD 1 none).getD 0 : Nat) : Int)) :
    countKey (runDay rs so (dayTicks d) ([], [])).2 (keyOf r d) = 1 := by
  have hH : (0 : Int) ≤ (((ts.getD 0 none).getD 0 : Nat) : Int) := Int.ofNat_nonneg _
  have hHlt : (((ts.getD 0 none).getD 0 : Nat) : Int) ≤ 23 := by exact_mod_cast hh
  have hMlt : (((ts.getD 1 none).getD 0 : Nat) : Int) ≤ 59 := by exact_mod_cast hmi
  have hM : (0 : Int) ≤ (((ts.getD 1 none).getD 0 : Nat) : Int) := Int.ofNat_nonneg _
  have hm0 : (0 : Int) ≤ (r.minutes_before : Int) := Int.ofNat_nonneg _
  set τ : Int := 60 * (((ts.getD 0 none).getD 0 : Nat) : Int)
      + (((ts.getD 1 none).getD 0 : Nat) : Int) - (r.minutes_before : Int) with hτ
  have hτ0 : 0 ≤ τ := by omega
  have hτlt : τ < 1440 := by omega
  have hbound : 0 ≤ (τ - ω) % 1440 ∧ (τ - ω) % 1440 < 1440 := by omega
  set k0 : Nat := ((τ - ω) % 1440).toNat with hk0
  have hk0c : (k0 : Int) = (τ - ω) % 1440 := Int.toNat_of_nonneg hbound.1
  have hk0lt : k0 < 1440 := by omega
  have hday : (86400000 * d + 60000 * (k0 : Int)) / 86400000 = d := by omega
  have hdue : isDue so (86400000 * d + 60000 * (k0 : Int)) r = true := by
    rw [isDue_day_tick r room ts so d ω k0 hroom hts hvalid hoff hh hmi]
    omega
  have hmemtick : (86400000 * d + 60000 * (k0 : Int)) ∈ dayTicks d := by
    unfold dayTicks
    exact List.mem_map_of_mem (fun k : Nat => 86400000 * d + 60000 * (k : Int))
      (List.mem_range.mpr hk0lt)
  obtain ⟨s, t, hsplit⟩ := List.append_of_mem hmemtick
  have hled : keyOf r d ∈ (runDay rs so (dayTicks d) ([], [])).1 := by
    unfold runDay
    rw [hsplit, List.foldl_append, List.foldl_cons]
    have h1 : keyOf r d ∈ (checkTick rs so (86400000 * d + 60000 * (k0 : Int))
        (s.foldl (fun acc now => checkTick rs so now acc) ([], []))).1 := by
      have h2 := checkTick_ledger_adds rs so (86400000 * d + 60000 * (k0 : Int))
        (s.foldl (fun acc now => checkTick rs so now acc) ([], [])) r hmem hen hdue
      rw [hday] at h2
      exact h2
    exact runDay_ledger_mono rs so t _ _ h1
  have hinv : ledgerInv (keyOf r d) (runDay rs so (dayTicks d) ([], [])) := by
    refine runDay_inv rs so (dayTicks d) ([], []) (keyOf r d) ?_
    unfold ledgerInv
    simp [countKey]
  unfold ledgerInv at hinv
  rw [if_pos hled] at hinv
  exact hinv

/-- A reminder that is not due at a tick leaves the tick state unchanged. -/
theorem foldl_tickStep_no_due (so now : Int) (l : List Reminder)
    (st : List FiringKey × List FiringKey)
    (h : ∀ r ∈ l, isDue so now r = false) : l.foldl (tickStep so now) st = st := by
  induction l generalizing st with
  | nil => rfl
  | cons a tl ih =>
    rw [List.foldl_cons]
    have ha : tickStep so now st a = st := by
      unfold tickStep
      rw [if_neg (by simp [h a (List.mem_cons_self _ _)])]
    rw [ha]
    exact ih _ fun r hr => h r (List.mem_cons_of_mem _ hr)

/-- A run of ticks at which no reminder is ever due changes nothing. -/
theorem runDay_no_due (rs : List Reminder) (so : Int) (ticks : List Int)
    (st : List FiringKey × List FiringKey)
    (h : ∀ now ∈ ticks, ∀ r ∈ rs, isDue so now r = false) :
    runDay rs so ticks st = st := by
  induction ticks generalizing st with
  | nil => rfl
  | cons t tl ih =>
    have hc : checkTick rs so t st = st := by
      unfold checkTick
      exact foldl_tickStep_no_due so t _ st fun r hr =>
        h t (List.mem_cons_self _ _) r (List.mem_filter.mp hr).1
    show runDay rs so tl (checkTick rs so t st) = st
    rw [hc]
    exact ih _ fun now hnow r hr => h now (List.mem_cons_of_mem _ hnow) r hr

/-- The reminder of the C1 counterexample: room opens 00:05 UTC and the
reminder asks for 15 minutes of warning, so the target 23:50 lies on the
previous day; the loop recomputes the opening against the tick's own date
every minute, so no tick of any day ever lands in the window. -/
def c1Rem : Reminder :=
  ⟨1, 1, 15, true, none, some ⟨1, "Gym", none, some [some 0, some 5, some 0], none⟩⟩

/-- C1 counterexample: an enabled reminder with a valid opening time
("00:05:00" UTC, `minutes_before = 15`) is attempted zero times — not
exactly once — over the full 1440-tick day: its target crosses back past
midnight, and the code recomputes the target from the current date each
tick, so the window is never hit. -/
theorem c1_counterexample_midnight_crossing :
    c1Rem.enabled = true ∧
    c1Rem.rooms = some ⟨1, "Gym", none, some [some 0, some 5, some 0], none⟩ ∧
    countKey (runDay [c1Rem] 0 (dayTicks 0) ([], [])).2 (keyOf c1Rem 0) = 0 := by
  refine ⟨rfl, rfl, ?_⟩
  have hnever : ∀ now ∈ dayTicks 0, ∀ r ∈ [c1Rem], isDue 0 now r = false := by
    intro now hnow r hr
    rw [List.mem_singleton] at hr
    subst hr
    unfold dayTicks at hnow
    rw [List.mem_map] at hnow
    obtain ⟨k, _, hkeq⟩ := hnow
    subst hkeq
    have hiff := isDue_day_tick c1Rem ⟨1, "Gym", none, some [some 0, some 5, some 0], none⟩
      [some 0, some 5, some 0] 0 0 0 k rfl rfl rfl (fun _ => rfl) (by decide) (by decide)
    have hv : 60 * ((([some 0, some 5, some 0].getD 0 none).getD 0 : Nat) : Int)
        + ((([some 0, some 5, some 0].getD 1 none).getD 0 : Nat) : Int)
        - (c1Rem.minutes_before : Int) = -10 := by decide
    rw [hv] at hiff
    rcases Bool.eq_false_or_eq_true (isDue 0 (86400000 * 0 + 60000 * (k : Int)) c1Rem)
      with h | h
    · exfalso
      have := hiff.mp h
      omega
    · exact h
  rw [runDay_no_due [c1Rem] 0 (dayTicks 0) ([], []) hnever]
  rfl

/-- The reminder of the C1 witness: the spec's own example, room opening
09:00:00 UTC with `minutes_before = 15`. -/
def c1wRem : Reminder :=
  ⟨3, 2, 15, true, none, some ⟨2, "Gym", none, some [some 9, some 0, some 0], none⟩⟩

/-- C1 witness: the spec's example reminder is attempted exactly once over
the day (at the 08:45 tick). -/
theorem c1_amended_fires_exactly_once_witness :
    c1wRem ∈ [c1wRem] ∧ c1wRem.enabled = true ∧
    countKey (runDay [c1wRem] 0 (dayTicks 0) ([], [])).2 (keyOf c1wRem 0) = 1 :=
  ⟨List.mem_singleton_self _, rfl,
    c1_amended_fires_exactly_once [c1wRem] c1wRem
      ⟨2, "Gym", none, some [some 9, some 0, some 0], none⟩ [some 9, some 0, some 0]
      0 0 0 (List.mem_singleton_self _) rfl rfl rfl rfl (fun _ => rfl)
      (by decide) (by decide) (by decide)⟩

end Daylock
